import Mathlib

/-!
Verification of the `preload_latency` interposition library.

The Rust sources are shallowly embedded:

* `src/hooks/src/toggle.rs` — the oscillating toggle.  `Instant` is modelled
  as an unbounded instant measured in nanoseconds, `Duration` as a number of
  nanoseconds (bounded by `durMAX`, the largest `std::time::Duration`).
  `Instant::duration_since` saturates at zero, exactly as `Nat` subtraction
  does.  A Rust panic (integer division by zero, `Duration::mul` overflow)
  is modelled as the result `none`.
* `src/hooks/src/config.rs` / `src/hooks/src/hooks.rs` — strings are
  modelled as lists of characters (`Str`), a `BTreeSet` as the list of its
  elements with an idempotent insert (`btInsert`), and a `Mutex` lock
  attempt as an `Option` of the guarded contents (`none` = the lock could
  not be acquired, i.e. the mutex was poisoned).
* The real libc implementations reached through `real!(...)`, and the
  `inet_ntop` renderings of the two IP families, are not code of this
  repository; they enter the model as function parameters.
-/

namespace PreloadLatency

/-- Strings are modelled as lists of characters. -/
abbrev Str := List Char

/-! ## Oscillating toggle (`src/hooks/src/toggle.rs`) -/

/-- Largest value a `u32` can hold; bound of the
`periods_elapsed.try_into::<u32>()` conversion in `is_active`. -/
def u32MAX : Nat := 4294967295

/-- Largest `std::time::Duration`, in nanoseconds
(`u64::MAX` seconds plus `999_999_999` nanoseconds). -/
def durMAX : Nat := 18446744073709551615 * 1000000000 + 999999999

/-- `Duration::as_secs` for a duration given in nanoseconds. -/
def asSecs (ns : Nat) : Nat := ns / 1000000000

/-- The toggle state of `toggle.rs`: `enabled` flag, the instant of the last
update (nanoseconds), and the toggle window (nanoseconds). -/
structure OscillatingToggle where
  enabled : Bool
  updated_at : Nat
  toggle_window : Nat
deriving DecidableEq, Repr

/-- `toggle::init` (`toggle.rs` lines 13–27): the toggle starts disabled at
the current instant. -/
def init (toggle_window : Nat) (now : Nat) : OscillatingToggle :=
  { enabled := false, updated_at := now, toggle_window := toggle_window }

/-- `toggle::is_active` (`toggle.rs` lines 29–78) on an initialized toggle
whose read and write locks are acquired.  `now` is the instant of the call in
nanoseconds.  Returns the pair of the returned boolean and the state left
behind, or `none` where the Rust code panics: the division
`elapsed.as_secs() / toggle_window.as_secs()` panics when the window is
shorter than one second, and `toggle_window * u32` panics when the product
exceeds the `Duration` range. -/
def is_active (s : OscillatingToggle) (now : Nat) : Option (Bool × OscillatingToggle) :=
  if asSecs s.toggle_window = 0 then
    none
  else
    let periods_elapsed := asSecs (now - s.updated_at) / asSecs s.toggle_window
    if periods_elapsed > 0 then
      let k : Nat := if periods_elapsed ≤ u32MAX then periods_elapsed else 0
      if durMAX < s.toggle_window * k then
        none
      else
        let updated_at := s.updated_at + s.toggle_window * k
        let enabled := if periods_elapsed % 2 = 1 then !s.enabled else s.enabled
        some (enabled,
          { enabled := enabled, updated_at := updated_at,
            toggle_window := s.toggle_window })
    else
      some (s.enabled, s)

/-! ## Configuration (`src/hooks/src/config.rs`) -/

/-- Rust `str::split(':')` on a string modelled as a list of characters: the
separator delimits segments, and leading/trailing/lone empty segments are
kept, so the empty string splits into the single segment `""`. -/
def splitColon : Str → List Str
  | [] => [[]]
  | c :: rest =>
    if c = ':' then [] :: splitColon rest
    else
      match splitColon rest with
      | [] => [[c]]
      | seg :: segs => (c :: seg) :: segs

/-- The host-set part of `HookConfig::load` (`config.rs` lines 24–28):
`envHosts` is the value of the `PRELOAD_LATENCY_HOSTS` environment variable
(`none` when unset).  The `BTreeSet<String>` collected from the split is
modelled as the list of segments; membership and emptiness agree with the
set's. -/
def loadHosts (envHosts : Option Str) : List Str :=
  match envHosts with
  | some s => splitColon s
  | none => []

/-- `HookConfig::sleep_duration` (`config.rs` lines 54–56): milliseconds
converted to microseconds in `c_uint` arithmetic, which wraps modulo `2^32`
in release builds. -/
def sleep_duration (sleep_duration_millis : Nat) : Nat :=
  sleep_duration_millis * 1000 % 4294967296

/-! ## Address decoding (`src/hooks/src/util.rs`) -/

/-- A `sockaddr` as `get_in_addr` decodes it: only the `sa_family`
discriminant and, for the two IP families, the raw address payload matter. -/
inductive SockAddr where
  /-- `AF_INET` with the 32-bit `sin_addr` payload. -/
  | v4 (addr : Nat)
  /-- `AF_INET6` with the 128-bit `sin6_addr` payload. -/
  | v6 (addr : Nat)
  /-- Any other address family. -/
  | other (family : Nat)
deriving DecidableEq, Repr

/-- `util::get_in_addr` (`util.rs` lines 16–42): the two IP families are
rendered through libc's `inet_ntop` (modelled by the parameters `ntop4` and
`ntop6`, code outside this repository); any other family leaves the 45-byte
buffer zeroed, and the zeroed buffer decodes to the empty string. -/
def get_in_addr (ntop4 ntop6 : Nat → Str) : SockAddr → Str
  | .v4 addr => ntop4 addr
  | .v6 addr => ntop6 addr
  | .other _ => []

/-! ## Tracked-state registry and hooks (`src/hooks/src/hooks.rs`) -/

/-- `BTreeSet` insertion on the element-list model: idempotent. -/
def btInsert {α : Type} [DecidableEq α] (l : List α) (x : α) : List α :=
  if x ∈ l then l else l ++ [x]

/-- The two registry sets: `HOST_ADDRS` and `HOST_SOCKETS`
(`hooks.rs` lines 12–15). -/
structure TrackState where
  addrs : List Str
  sockets : List Int
deriving DecidableEq, Repr

/-- `should_intercept_host` (`hooks.rs` lines 38–41). -/
def should_intercept_host (hosts : List Str) (host : Str) : Bool :=
  hosts.contains host || hosts.isEmpty

/-- `should_intercept_ip` (`hooks.rs` lines 43–48).  `addrLock` is the
outcome of `HOST_ADDRS.lock()`: the current contents on success, `none` on
failure, in which case the call falls back to `hosts.is_empty()`. -/
def should_intercept_ip (addrLock : Option (List Str)) (hosts : List Str) (ip : Str) : Bool :=
  match addrLock with
  | some addrs => addrs.contains ip
  | none => (hosts : List Str).isEmpty

/-- `should_intercept_socket` (`hooks.rs` lines 50–60).  `sockLock` is the
outcome of `HOST_SOCKETS.lock()`; failure is treated as not tracked. -/
def should_intercept_socket (sockLock : Option (List Int)) (socket : Int) : Bool :=
  if socket ≤ 2 then
    false
  else
    match sockLock with
    | some sockets => sockets.contains socket
    | none => false

/-- The registration step of `w_getaddrinfo` (`hooks.rs` lines 62–82):
on a zero result, when the node C string decodes to UTF-8 (`node = some s`),
the host passes `should_intercept_host` and `HOST_ADDRS.lock()` succeeds,
every `ai_addr` of the walked result list is rendered and inserted. -/
def trackResolution (ntop4 ntop6 : Nat → Str) (hosts : List Str) (st : TrackState)
    (result : Int) (node : Option Str) (res : List SockAddr) (lockOk : Bool) : TrackState :=
  match node with
  | some node_str =>
    if result = 0 ∧ should_intercept_host hosts node_str = true ∧ lockOk = true then
      { st with
        addrs := res.foldl (fun a r => btInsert a (get_in_addr ntop4 ntop6 r)) st.addrs }
    else
      st
  | none => st

/-- `w_getaddrinfo` in full: the real resolver's result code and result list
are parameters (libc code outside this repository); the wrapper returns the
real result unchanged next to the updated registry. -/
def w_getaddrinfo (ntop4 ntop6 : Nat → Str) (hosts : List Str) (st : TrackState)
    (result : Int) (node : Option Str) (res : List SockAddr) (lockOk : Bool) :
    Int × TrackState :=
  (result, trackResolution ntop4 ntop6 hosts st result node res lockOk)

/-- The view of `HOST_ADDRS` that one `HOST_ADDRS.lock()` attempt yields:
the current contents on success, `none` on failure. -/
def addrLockView (st : TrackState) (ok : Bool) : Option (List Str) :=
  if ok then some st.addrs else none

/-- The registration step shared by `w_connect` and `w_bind`
(`hooks.rs` lines 102–136): the socket is inserted when the decoded address
passes `should_intercept_ip` and `HOST_SOCKETS.lock()` succeeds. -/
def trackSocket (hosts : List Str) (st : TrackState) (addrLockOk sockLockOk : Bool)
    (socket : Int) (ip : Str) : TrackState :=
  if should_intercept_ip (addrLockView st addrLockOk) hosts ip = true
      ∧ sockLockOk = true then
    { st with sockets := btInsert st.sockets socket }
  else
    st

/-- `w_connect` (`hooks.rs` lines 102–118): calls the real `connect` first,
then registers the socket if the decoded peer address is tracked; the real
result is returned unchanged, whatever it is. -/
def w_connect (ntop4 ntop6 : Nat → Str) (hosts : List Str) (st : TrackState)
    (addrLockOk sockLockOk : Bool) (real_connect : Int → SockAddr → Nat → Int)
    (socket : Int) (address : SockAddr) (len : Nat) : Int × TrackState :=
  let result := real_connect socket address len
  (result,
    trackSocket hosts st addrLockOk sockLockOk socket (get_in_addr ntop4 ntop6 address))

/-- `w_bind` (`hooks.rs` lines 120–136): same shape as `w_connect` with the
local address. -/
def w_bind (ntop4 ntop6 : Nat → Str) (hosts : List Str) (st : TrackState)
    (addrLockOk sockLockOk : Bool) (real_bind : Int → SockAddr → Nat → Int)
    (socket : Int) (address : SockAddr) (address_len : Nat) : Int × TrackState :=
  let result := real_bind socket address address_len
  (result,
    trackSocket hosts st addrLockOk sockLockOk socket (get_in_addr ntop4 ntop6 address))

/-! ### The eight I/O wrappers (`hooks.rs` lines 138–245)

Each wrapper sleeps (`libc::usleep`) before the real call when
`should_intercept_socket` holds, then delegates every argument verbatim to
the real implementation (a parameter: libc code outside this repository) and
returns its result.  Pointers (`buf`, `iov`) are opaque addresses modelled as
`Nat`; the wrapper only passes them through.  The pair returned is the
number of microseconds slept next to the real call's result. -/

/-- `w_send` (`hooks.rs` lines 138–150). -/
def w_send (sockLock : Option (List Int)) (sleep_usec : Nat)
    (real_send : Int → Nat → Nat → Int → Int)
    (socket : Int) (buf : Nat) (len : Nat) (flags : Int) : Nat × Int :=
  ((if should_intercept_socket sockLock socket then sleep_usec else 0),
    real_send socket buf len flags)

/-- `w_recv` (`hooks.rs` lines 152–163). -/
def w_recv (sockLock : Option (List Int)) (sleep_usec : Nat)
    (real_recv : Int → Nat → Nat → Int → Int)
    (socket : Int) (buf : Nat) (len : Nat) (flags : Int) : Nat × Int :=
  ((if should_intercept_socket sockLock socket then sleep_usec else 0),
    real_recv socket buf len flags)

/-- `w_sendto` (`hooks.rs` lines 165–177). -/
def w_sendto (sockLock : Option (List Int)) (sleep_usec : Nat)
    (real_sendto : Int → Nat → Nat → Int → Nat → Nat → Int)
    (socket : Int) (buf : Nat) (len : Nat) (flags : Int) (addr : Nat) (addrlen : Nat) :
    Nat × Int :=
  ((if should_intercept_socket sockLock socket then sleep_usec else 0),
    real_sendto socket buf len flags addr addrlen)

/-- `w_recvfrom` (`hooks.rs` lines 179–191). -/
def w_recvfrom (sockLock : Option (List Int)) (sleep_usec : Nat)
    (real_recvfrom : Int → Nat → Nat → Int → Nat → Nat → Int)
    (socket : Int) (buf : Nat) (len : Nat) (flags : Int) (addr : Nat) (addrlen : Nat) :
    Nat × Int :=
  ((if should_intercept_socket sockLock socket then sleep_usec else 0),
    real_recvfrom socket buf len flags addr addrlen)

/-- `w_write` (`hooks.rs` lines 193–204). -/
def w_write (sockLock : Option (List Int)) (sleep_usec : Nat)
    (real_write : Int → Nat → Nat → Int)
    (fd : Int) (buf : Nat) (count : Nat) : Nat × Int :=
  ((if should_intercept_socket sockLock fd then sleep_usec else 0),
    real_write fd buf count)

/-- `w_read` (`hooks.rs` lines 207–218). -/
def w_read (sockLock : Option (List Int)) (sleep_usec : Nat)
    (real_read : Int → Nat → Nat → Int)
    (fd : Int) (buf : Nat) (count : Nat) : Nat × Int :=
  ((if should_intercept_socket sockLock fd then sleep_usec else 0),
    real_read fd buf count)

/-- `w_writev` (`hooks.rs` lines 220–231). -/
def w_writev (sockLock : Option (List Int)) (sleep_usec : Nat)
    (real_writev : Int → Nat → Int → Int)
    (fd : Int) (iov : Nat) (count : Int) : Nat × Int :=
  ((if should_intercept_socket sockLock fd then sleep_usec else 0),
    real_writev fd iov count)

/-- `w_readv` (`hooks.rs` lines 233–244). -/
def w_readv (sockLock : Option (List Int)) (sleep_usec : Nat)
    (real_readv : Int → Nat → Int → Int)
    (fd : Int) (iov : Nat) (count : Int) : Nat × Int :=
  ((if should_intercept_socket sockLock fd then sleep_usec else 0),
    real_readv fd iov count)

/-! ### Registry histories

The only operations that mutate `HOST_ADDRS` or `HOST_SOCKETS` are the
`getaddrinfo`, `connect` and `bind` wrappers; a process history is a list of
such calls, each carrying the outside-world inputs the wrapper reacted to
(real result, decoded strings, lock outcomes). -/

/-- One registry-mutating wrapper call. -/
inductive Event where
  /-- A `w_getaddrinfo` call: real result, decoded node name (`none` when the
  C string is not valid UTF-8), the `ai_addr` list walked from `*res`, and
  the `HOST_ADDRS.lock()` outcome. -/
  | getaddrinfo (result : Int) (node : Option Str) (res : List SockAddr) (lockOk : Bool)
  /-- A `w_connect` call: socket, decoded peer address, and the two lock
  outcomes (`HOST_ADDRS` inside `should_intercept_ip`, then `HOST_SOCKETS`). -/
  | connect (socket : Int) (address : SockAddr) (addrLockOk sockLockOk : Bool)
  /-- A `w_bind` call, same data as `connect`. -/
  | bind (socket : Int) (address : SockAddr) (addrLockOk sockLockOk : Bool)

/-- The registry change of one wrapper call. -/
def applyEvent (ntop4 ntop6 : Nat → Str) (hosts : List Str)
    (st : TrackState) : Event → TrackState
  | .getaddrinfo result node res lockOk =>
    trackResolution ntop4 ntop6 hosts st result node res lockOk
  | .connect socket address addrLockOk sockLockOk =>
    trackSocket hosts st addrLockOk sockLockOk socket (get_in_addr ntop4 ntop6 address)
  | .bind socket address addrLockOk sockLockOk =>
    trackSocket hosts st addrLockOk sockLockOk socket (get_in_addr ntop4 ntop6 address)

/-- The registry state after a history of wrapper calls. -/
def run (ntop4 ntop6 : Nat → Str) (hosts : List Str)
    (st : TrackState) (events : List Event) : TrackState :=
  events.foldl (applyEvent ntop4 ntop6 hosts) st

/-! ## Supporting lemmas -/

theorem asSecs_mul (ws : Nat) : asSecs (ws * 1000000000) = ws :=
  Nat.mul_div_cancel ws (by decide)

/-- For whole-second windows the period count of `is_active` is exactly the
number of whole windows elapsed. -/
theorem periods_eq_whole_windows (u now ws : Nat) :
    asSecs (now - u) / asSecs (ws * 1000000000) = (now - u) / (ws * 1000000000) := by
  rw [asSecs_mul]
  unfold asSecs
  rw [Nat.div_div_eq_div_mul, Nat.mul_comm]

theorem half_window_div (w : Nat) (hw : 0 < w) : w / 2 / w = 0 :=
  Nat.div_eq_of_lt (Nat.div_lt_self hw one_lt_two)

theorem window_and_half_div (w : Nat) (hw : 0 < w) : (w + w / 2) / w = 1 := by
  rw [Nat.add_comm, Nat.add_div_right _ hw, half_window_div w hw]

/-- The mutating branch of `is_active` for a whole-second window and an
in-range period count `k`. -/
theorem is_active_step (e : Bool) (u ws now k : Nat) (hws : 0 < ws)
    (hk : (now - u) / (ws * 1000000000) = k) (h1 : 1 ≤ k) (h2 : k ≤ u32MAX)
    (h3 : ws * 1000000000 * k ≤ durMAX) :
    is_active ⟨e, u, ws * 1000000000⟩ now =
      some ((if k % 2 = 1 then !e else e),
        ⟨(if k % 2 = 1 then !e else e), u + ws * 1000000000 * k, ws * 1000000000⟩) := by
  have hp : asSecs (now - u) / asSecs (ws * 1000000000) = k := by
    rw [periods_eq_whole_windows, hk]
  have h0 : 0 < k := Nat.lt_of_lt_of_le Nat.one_pos h1
  simp only [is_active, hp]
  rw [if_neg (by rw [asSecs_mul]; exact hws.ne'), if_pos h0, if_pos h2,
    if_neg (Nat.not_lt.mpr h3)]

/-- The non-mutating branch of `is_active` for a whole-second window:
zero periods elapsed. -/
theorem is_active_same (e : Bool) (u ws now : Nat) (hws : 0 < ws)
    (hk : (now - u) / (ws * 1000000000) = 0) :
    is_active ⟨e, u, ws * 1000000000⟩ now = some (e, ⟨e, u, ws * 1000000000⟩) := by
  have hp : asSecs (now - u) / asSecs (ws * 1000000000) = 0 := by
    rw [periods_eq_whole_windows, hk]
  simp only [is_active, hp]
  rw [if_neg (by rw [asSecs_mul]; exact hws.ne'), if_neg (by decide)]

/-! ## Claims -/

/-- C1 (amended): for a toggle window of `ws` whole seconds (`0 < ws`, window
within the `Duration` range), starting disabled at `t0`: `is_active` at
`t0 + 0.5W` returns `false` without mutation, at `t0 + 1.5W` returns `true`
advancing `updated_at` to `t0 + W`, and at `t0 + 2.5W` returns `false`
advancing `updated_at` to `t0 + 2W`.  In general a call whose elapsed
whole-window count is `k` with `1 ≤ k ≤ u32::MAX` and `W·k` within the
`Duration` range flips `enabled` exactly when `k` is odd, advances
`updated_at` by `k` whole windows, persists the new pair, and returns the
new value; a call with `k = 0` returns the current value without mutation.
(The unamended claim fails for fractional-second windows, where the period
count is computed from truncated whole seconds — see the counterexample.) -/
theorem toggle_oscillation (ws t0 : Nat) (hws : 0 < ws)
    (hdur : ws * 1000000000 ≤ durMAX) :
    (is_active (init (ws * 1000000000) t0) (t0 + ws * 1000000000 / 2) =
        some (false, init (ws * 1000000000) t0))
    ∧ (is_active (init (ws * 1000000000) t0)
          (t0 + ws * 1000000000 + ws * 1000000000 / 2) =
        some (true, ⟨true, t0 + ws * 1000000000, ws * 1000000000⟩))
    ∧ (is_active ⟨true, t0 + ws * 1000000000, ws * 1000000000⟩
          (t0 + ws * 1000000000 + ws * 1000000000 + ws * 1000000000 / 2) =
        some (false, ⟨false, t0 + ws * 1000000000 + ws * 1000000000,
          ws * 1000000000⟩))
    ∧ (∀ (e : Bool) (u now k : Nat), (now - u) / (ws * 1000000000) = k →
        1 ≤ k → k ≤ u32MAX → ws * 1000000000 * k ≤ durMAX →
        is_active ⟨e, u, ws * 1000000000⟩ now =
          some ((if k % 2 = 1 then !e else e),
            ⟨(if k % 2 = 1 then !e else e), u + ws * 1000000000 * k,
              ws * 1000000000⟩))
    ∧ (∀ (e : Bool) (u now : Nat), (now - u) / (ws * 1000000000) = 0 →
        is_active ⟨e, u, ws * 1000000000⟩ now =
          some (e, ⟨e, u, ws * 1000000000⟩)) := by
  have hW : 0 < ws * 1000000000 := Nat.mul_pos hws (by decide)
  refine ⟨?_, ?_, ?_, ?_, ?_⟩
  · have h := is_active_same false t0 ws (t0 + ws * 1000000000 / 2) hws ?_
    · simpa [init] using h
    · have he : t0 + ws * 1000000000 / 2 - t0 = ws * 1000000000 / 2 := by omega
      rw [he]
      exact half_window_div _ hW
  · have h := is_active_step false t0 ws
      (t0 + ws * 1000000000 + ws * 1000000000 / 2) 1 hws ?_ (le_refl 1)
      (by decide) (by rw [Nat.mul_one]; exact hdur)
    · simpa [init] using h
    · have he : t0 + ws * 1000000000 + ws * 1000000000 / 2 - t0 =
          ws * 1000000000 + ws * 1000000000 / 2 := by omega
      rw [he]
      exact window_and_half_div _ hW
  · have h := is_active_step true (t0 + ws * 1000000000) ws
      (t0 + ws * 1000000000 + ws * 1000000000 + ws * 1000000000 / 2) 1 hws ?_
      (le_refl 1) (by decide) (by rw [Nat.mul_one]; exact hdur)
    · simpa using h
    · have he : t0 + ws * 1000000000 + ws * 1000000000 + ws * 1000000000 / 2 -
          (t0 + ws * 1000000000) = ws * 1000000000 + ws * 1000000000 / 2 := by
        omega
      rw [he]
      exact window_and_half_div _ hW
  · intro e u now k hk h1 h2 h3
    exact is_active_step e u ws now k hws hk h1 h2 h3
  · intro e u now hk
    exact is_active_same e u ws now hws hk

/-- C1 counterexample: with the 1.5-second window `W = 1500000000` ns,
starting disabled at `t0 = 0`, the call at `t0 + 0.5W` leaves the state
unchanged (so the claim's scenario reaches the second call in that state),
but the call at `t0 + 1.5W = 2250000000` ns returns `false` where the claim
requires `true`: the code computes `⌊1.5W in s⌋ / ⌊W in s⌋ = 3 / 1 = 2`
periods (even, no flip) and moves `updated_at` to `3000000000` ns — ahead of
the call instant. -/
theorem toggle_oscillation_counterexample :
    is_active (init 1500000000 0) 750000000 = some (false, init 1500000000 0)
    ∧ is_active (init 1500000000 0) 2250000000 =
        some (false, ⟨false, 3000000000, 1500000000⟩)
    ∧ is_active (init 1500000000 0) 2250000000 ≠
        some (true, ⟨true, 1500000000, 1500000000⟩) := by
  refine ⟨by decide, by decide, by decide⟩

/-- C1 witness: the first scenario call with a one-second window. -/
theorem toggle_oscillation_witness :
    is_active (init (1 * 1000000000) 0) (0 + 1 * 1000000000 / 2) =
      some (false, init (1 * 1000000000) 0) :=
  (toggle_oscillation 1 0 (by decide) (by decide)).1

/-- C5: contrary to the claim, `is_active` does not return a boolean for
every window passed to `init`: initialized with a 500 ms window (whole-second
count zero), the first later call performs
`elapsed.as_secs() / toggle_window.as_secs()` with a zero divisor, an
unguarded integer division that panics (modelled as `none`). -/
theorem subsecond_window_division_panics :
    is_active (init 500000000 0) 1000000000 = none := by
  decide

/-- C6 (amended): when the elapsed period count exceeds `u32::MAX`, only the
`updated_at` advance is treated as zero (`try_into::<u32>().unwrap_or(0)`
guards the window multiplication): `updated_at` is left unchanged, but
`enabled` is still flipped when the oversized count is odd, the pair is
persisted, and the (possibly flipped) value is returned. -/
theorem toggle_overflow_guard (s : OscillatingToggle) (now : Nat)
    (hws : 0 < asSecs s.toggle_window)
    (hbig : u32MAX < asSecs (now - s.updated_at) / asSecs s.toggle_window) :
    is_active s now =
      some ((if (asSecs (now - s.updated_at) / asSecs s.toggle_window) % 2 = 1
              then !s.enabled else s.enabled),
        ⟨(if (asSecs (now - s.updated_at) / asSecs s.toggle_window) % 2 = 1
              then !s.enabled else s.enabled),
          s.updated_at, s.toggle_window⟩) := by
  have h0 : 0 < asSecs (now - s.updated_at) / asSecs s.toggle_window :=
    Nat.lt_of_le_of_lt (Nat.zero_le u32MAX) hbig
  simp only [is_active]
  rw [if_neg hws.ne', if_pos h0, if_neg (Nat.not_le.mpr hbig)]
  rw [Nat.mul_zero, Nat.add_zero]
  simp [durMAX]

/-- C6 counterexample: disabled toggle, one-second window, `updated_at = 0`,
called at `(2^32 + 1)` seconds: the period count `2^32 + 1` exceeds
`u32::MAX`, yet the state is not left unchanged — `enabled` flips to `true`
(the count is odd) while only `updated_at` stays at `0`. -/
theorem toggle_overflow_counterexample :
    is_active ⟨false, 0, 1000000000⟩ 4294967297000000000 =
        some (true, ⟨true, 0, 1000000000⟩)
    ∧ is_active ⟨false, 0, 1000000000⟩ 4294967297000000000 ≠
        some (false, ⟨false, 0, 1000000000⟩) := by
  refine ⟨by decide, by decide⟩

/-- C6 witness: the amended overflow behaviour at the concrete input of the
counterexample. -/
theorem toggle_overflow_witness :
    is_active ⟨false, 0, 1000000000⟩ 4294967297000000000 =
      some (true, ⟨true, 0, 1000000000⟩) := by
  have h := toggle_overflow_guard ⟨false, 0, 1000000000⟩ 4294967297000000000
    (by decide) (by decide)
  simpa using h

/-- C2 (amended): `should_intercept_host(n)` is true iff the configured set
`H` is empty or `n ∈ H`; when the host-list environment variable is unset the
effective set is empty and every name is intercepted.  When the variable is
set to the empty string, however, splitting on `':'` yields the singleton
set containing the empty string, so exactly the empty hostname is
intercepted (not every name, as the unamended claim states). -/
theorem host_gate (hosts : List Str) (n : Str) :
    (should_intercept_host hosts n = true ↔ (hosts = [] ∨ n ∈ hosts))
    ∧ loadHosts none = []
    ∧ (∀ m : Str, should_intercept_host (loadHosts none) m = true)
    ∧ loadHosts (some []) = [[]]
    ∧ (∀ m : Str, should_intercept_host (loadHosts (some [])) m = true ↔ m = []) := by
  refine ⟨?_, rfl, fun m => rfl, rfl, fun m => ?_⟩
  · simp [should_intercept_host, List.isEmpty_iff, or_comm]
  · simp [loadHosts, splitColon, should_intercept_host, eq_comm]

/-- C2 counterexample: with the host-list variable set to the empty string
the parsed set is the singleton `{""}` — not empty — and the queried name
`"example.com"` is not intercepted, against the claim's "track all hosts". -/
theorem host_gate_counterexample :
    loadHosts (some []) = [[]]
    ∧ should_intercept_host (loadHosts (some [])) "example.com".toList = false := by
  refine ⟨by decide, by decide⟩

/-- C2 witness: the membership characterization at a concrete list. -/
theorem host_gate_witness :
    should_intercept_host [['a']] ['a'] = true :=
  (host_gate [['a']] ['a']).1.mpr (Or.inr (by decide))

/-- C7: `should_intercept_socket` is false for every descriptor `≤ 2`
regardless of the registry and the lock; for `fd > 2` with the lock acquired
it is true iff `fd` is in `HOST_SOCKETS`; and lock failure yields false
(fail closed). -/
theorem socket_gate (sockets : List Int) (fd : Int) :
    (fd ≤ 2 → ∀ sockLock : Option (List Int),
        should_intercept_socket sockLock fd = false)
    ∧ (2 < fd →
        (should_intercept_socket (some sockets) fd = true ↔ fd ∈ sockets))
    ∧ should_intercept_socket none fd = false := by
  refine ⟨fun h sockLock => ?_, fun h => ?_, ?_⟩
  · simp [should_intercept_socket, h]
  · simp [should_intercept_socket, Int.not_le.mpr h]
  · unfold should_intercept_socket
    split <;> rfl

/-- C7 witness: a tracked descriptor above the standard streams. -/
theorem socket_gate_witness :
    should_intercept_socket (some [3]) 3 = true :=
  ((socket_gate [3] 3).2.1 (by decide)).mpr (by decide)

/-- C8: on `HOST_ADDRS` lock failure `should_intercept_ip` returns true
exactly when the configured host list is empty (match-all fallback), false
otherwise; with the lock acquired it is true iff the address is in
`HOST_ADDRS`. -/
theorem ip_gate (addrs hosts : List Str) (ip : Str) :
    (should_intercept_ip none hosts ip = true ↔ hosts = [])
    ∧ (should_intercept_ip (some addrs) hosts ip = true ↔ ip ∈ addrs) := by
  constructor
  · simp [should_intercept_ip, List.isEmpty_iff]
  · simp [should_intercept_ip]

/-- C8 witness: both lock outcomes at concrete inputs. -/
theorem ip_gate_witness :
    should_intercept_ip (some [['a']]) [['h']] ['a'] = true :=
  (ip_gate [['a']] [['h']] ['a']).2.mpr (by decide)

/-- C3: each of the eight I/O wrappers returns exactly the real
implementation's result on the verbatim argument tuple, for every registry
lock outcome and sleep duration — interception only adds the sleep, never
changing the delegated call or its result. -/
theorem io_wrappers_pass_through (sockLock : Option (List Int)) (sleep_usec : Nat) :
    (∀ (real_send : Int → Nat → Nat → Int → Int) socket buf len flags,
        (w_send sockLock sleep_usec real_send socket buf len flags).2 =
          real_send socket buf len flags)
    ∧ (∀ (real_recv : Int → Nat → Nat → Int → Int) socket buf len flags,
        (w_recv sockLock sleep_usec real_recv socket buf len flags).2 =
          real_recv socket buf len flags)
    ∧ (∀ (real_sendto : Int → Nat → Nat → Int → Nat → Nat → Int)
          socket buf len flags addr addrlen,
        (w_sendto sockLock sleep_usec real_sendto socket buf len flags addr addrlen).2 =
          real_sendto socket buf len flags addr addrlen)
    ∧ (∀ (real_recvfrom : Int → Nat → Nat → Int → Nat → Nat → Int)
          socket buf len flags addr addrlen,
        (w_recvfrom sockLock sleep_usec real_recvfrom socket buf len flags addr addrlen).2 =
          real_recvfrom socket buf len flags addr addrlen)
    ∧ (∀ (real_read : Int → Nat → Nat → Int) fd buf count,
        (w_read sockLock sleep_usec real_read fd buf count).2 = real_read fd buf count)
    ∧ (∀ (real_write : Int → Nat → Nat → Int) fd buf count,
        (w_write sockLock sleep_usec real_write fd buf count).2 = real_write fd buf count)
    ∧ (∀ (real_readv : Int → Nat → Int → Int) fd iov count,
        (w_readv sockLock sleep_usec real_readv fd iov count).2 = real_readv fd iov count)
    ∧ (∀ (real_writev : Int → Nat → Int → Int) fd iov count,
        (w_writev sockLock sleep_usec real_writev fd iov count).2 =
          real_writev fd iov count) :=
  ⟨fun _ _ _ _ _ => rfl, fun _ _ _ _ _ => rfl, fun _ _ _ _ _ _ _ => rfl,
    fun _ _ _ _ _ _ _ => rfl, fun _ _ _ _ => rfl, fun _ _ _ _ => rfl,
    fun _ _ _ _ => rfl, fun _ _ _ _ => rfl⟩

/-- C4 (amended): a non-IPv4/IPv6 `sockaddr` yields the empty textual
address; with the `HOST_ADDRS` lock acquired the empty string matches only
if the empty string itself was registered, so it matches no genuinely
tracked entry; but on lock failure `should_intercept_ip` falls back to the
match-all policy, so with an empty configured host list the empty string
does satisfy it (the unamended "never satisfies" is wrong there). -/
theorem non_ip_yields_empty (ntop4 ntop6 : Nat → Str) (family : Nat)
    (addrs hosts : List Str) :
    get_in_addr ntop4 ntop6 (SockAddr.other family) = []
    ∧ (([] : Str) ∉ addrs → should_intercept_ip (some addrs) hosts [] = false)
    ∧ should_intercept_ip none hosts [] = hosts.isEmpty := by
  refine ⟨rfl, fun h => ?_, rfl⟩
  simpa [should_intercept_ip] using h

/-- C4 counterexample: with the `HOST_ADDRS` lock unavailable and an empty
configured host list, the empty string produced for a non-IP address family
does satisfy `should_intercept_ip` — so tracking is not a no-op there. -/
theorem non_ip_counterexample :
    get_in_addr (fun _ => ['x']) (fun _ => ['x']) (SockAddr.other 1) = []
    ∧ should_intercept_ip none [] [] = true := by
  refine ⟨by decide, by decide⟩

/-- C4 witness: the lock-acquired case at a concrete registry. -/
theorem non_ip_witness :
    should_intercept_ip (some [['a']]) [['h']] [] = false :=
  (non_ip_yields_empty (fun _ => []) (fun _ => []) 0 [['a']] [['h']]).2.1 (by decide)

theorem subset_btInsert {α : Type} [DecidableEq α] (l : List α) (x : α) :
    l ⊆ btInsert l x := by
  intro a ha
  unfold btInsert
  split
  · exact ha
  · exact List.mem_append_left _ ha

theorem mem_btInsert_self {α : Type} [DecidableEq α] (l : List α) (x : α) :
    x ∈ btInsert l x := by
  unfold btInsert
  split
  · assumption
  · exact List.mem_append_right _ (by simp)

theorem subset_foldl_btInsert {α β : Type} [DecidableEq α] (f : β → α)
    (rs : List β) (l : List α) :
    l ⊆ rs.foldl (fun a r => btInsert a (f r)) l := by
  induction rs generalizing l with
  | nil => exact fun a ha => ha
  | cons r rs ih =>
    intro a ha
    exact ih (btInsert l (f r)) (subset_btInsert l (f r) ha)

theorem mem_foldl_btInsert {α β : Type} [DecidableEq α] (f : β → α)
    {rs : List β} {r : β} (hr : r ∈ rs) :
    ∀ l : List α, f r ∈ rs.foldl (fun a r => btInsert a (f r)) l := by
  induction hr with
  | head as =>
    intro l
    exact subset_foldl_btInsert f as _ (mem_btInsert_self l (f r))
  | tail b _ ih =>
    intro l
    exact ih _

/-- A single wrapper call only grows both registry sets. -/
theorem applyEvent_subset (ntop4 ntop6 : Nat → Str) (hosts : List Str)
    (st : TrackState) (e : Event) :
    st.addrs ⊆ (applyEvent ntop4 ntop6 hosts st e).addrs
    ∧ st.sockets ⊆ (applyEvent ntop4 ntop6 hosts st e).sockets := by
  cases e with
  | getaddrinfo result node res lockOk =>
    cases node with
    | none => exact ⟨fun a h => h, fun a h => h⟩
    | some node_str =>
      refine ⟨fun a h => ?_, fun a h => ?_⟩ <;>
        simp only [applyEvent, trackResolution] <;> split
      · exact subset_foldl_btInsert _ res st.addrs h
      · exact h
      · exact h
      · exact h
  | connect socket address addrLockOk sockLockOk =>
    refine ⟨fun a h => ?_, fun a h => ?_⟩ <;>
      simp only [applyEvent, trackSocket] <;> split
    · exact h
    · exact h
    · exact subset_btInsert _ _ h
    · exact h
  | bind socket address addrLockOk sockLockOk =>
    refine ⟨fun a h => ?_, fun a h => ?_⟩ <;>
      simp only [applyEvent, trackSocket] <;> split
    · exact h
    · exact h
    · exact subset_btInsert _ _ h
    · exact h

/-- A whole history of wrapper calls only grows both registry sets. -/
theorem run_subset (ntop4 ntop6 : Nat → Str) (hosts : List Str)
    (st : TrackState) (events : List Event) :
    st.addrs ⊆ (run ntop4 ntop6 hosts st events).addrs
    ∧ st.sockets ⊆ (run ntop4 ntop6 hosts st events).sockets := by
  induction events generalizing st with
  | nil => exact ⟨fun a h => h, fun a h => h⟩
  | cons e es ih =>
    have h1 := applyEvent_subset ntop4 ntop6 hosts st e
    have h2 := ih (applyEvent ntop4 ntop6 hosts st e)
    exact ⟨List.Subset.trans h1.1 h2.1, List.Subset.trans h1.2 h2.2⟩

/-- C9: `HOST_ADDRS` and `HOST_SOCKETS` are append-only — no wrapper call
ever removes an entry from either set; after a successful resolution of a
tracked host, each rendered address satisfies `should_intercept_ip`
(lock acquired) and keeps satisfying it after any further history; and a
descriptor once in `HOST_SOCKETS` stays a member. -/
theorem registries_append_only (ntop4 ntop6 : Nat → Str) (hosts : List Str) :
    (∀ (st : TrackState) (e : Event),
        st.addrs ⊆ (applyEvent ntop4 ntop6 hosts st e).addrs
        ∧ st.sockets ⊆ (applyEvent ntop4 ntop6 hosts st e).sockets)
    ∧ (∀ (st : TrackState) (events : List Event),
        st.addrs ⊆ (run ntop4 ntop6 hosts st events).addrs
        ∧ st.sockets ⊆ (run ntop4 ntop6 hosts st events).sockets)
    ∧ (∀ (st : TrackState) (node : Str) (res : List SockAddr),
        should_intercept_host hosts node = true →
        ∀ a ∈ res, ∀ events : List Event,
          should_intercept_ip
            (some (run ntop4 ntop6 hosts
              (applyEvent ntop4 ntop6 hosts st
                (Event.getaddrinfo 0 (some node) res true)) events).addrs)
            hosts (get_in_addr ntop4 ntop6 a) = true)
    ∧ (∀ (st : TrackState) (fd : Int), fd ∈ st.sockets →
        ∀ events : List Event, fd ∈ (run ntop4 ntop6 hosts st events).sockets) := by
  refine ⟨applyEvent_subset ntop4 ntop6 hosts,
    run_subset ntop4 ntop6 hosts, ?_, ?_⟩
  · intro st node res hhost a ha events
    have hreg : get_in_addr ntop4 ntop6 a ∈
        (applyEvent ntop4 ntop6 hosts st
          (Event.getaddrinfo 0 (some node) res true)).addrs := by
      simp only [applyEvent, trackResolution]
      split
      · exact mem_foldl_btInsert _ ha st.addrs
      · rename_i hneg
        exact absurd ⟨trivial, hhost, trivial⟩ hneg
    have hrun := (run_subset ntop4 ntop6 hosts _ events).1 hreg
    exact List.elem_eq_true_of_mem hrun
  · intro st fd hfd events
    exact (run_subset ntop4 ntop6 hosts st events).2 hfd

/-- C9 witness: a concrete resolution of a tracked host followed by a
further `bind` call keeps the registered address intercepted. -/
theorem registries_append_only_witness :
    should_intercept_ip
      (some (run (fun _ => ['4']) (fun _ => ['6']) [['h']]
        (applyEvent (fun _ => ['4']) (fun _ => ['6']) [['h']] ⟨[], []⟩
          (Event.getaddrinfo 0 (some ['h']) [SockAddr.v4 7] true))
        [Event.bind 5 (SockAddr.v6 1) true true]).addrs)
      [['h']] (get_in_addr (fun _ => ['4']) (fun _ => ['6']) (SockAddr.v4 7)) = true :=
  (registries_append_only (fun _ => ['4']) (fun _ => ['6']) [['h']]).2.2.1
    ⟨[], []⟩ ['h'] [SockAddr.v4 7] (by decide) (SockAddr.v4 7) (by decide)
    [Event.bind 5 (SockAddr.v6 1) true true]

/-- C10 (amended): when the decoded address satisfies `should_intercept_ip`
(locks acquired), `w_connect` and `w_bind` insert the descriptor into
`HOST_SOCKETS` regardless of the real call's result, and return that result
unchanged; a descriptor greater than 2 whose connect or bind to a tracked
address failed is still subsequently reported as tracked by
`should_intercept_socket` (descriptors `≤ 2` are inserted too, but the
standard-stream guard makes `should_intercept_socket` report them as
untracked — see the counterexample). -/
theorem connect_bind_track_regardless (ntop4 ntop6 : Nat → Str) (hosts : List Str)
    (st : TrackState) (real_connect real_bind : Int → SockAddr → Nat → Int)
    (socket : Int) (address : SockAddr) (len : Nat)
    (hip : should_intercept_ip (some st.addrs) hosts
      (get_in_addr ntop4 ntop6 address) = true) :
    ((w_connect ntop4 ntop6 hosts st true true real_connect socket address len).1 =
        real_connect socket address len)
    ∧ socket ∈
        (w_connect ntop4 ntop6 hosts st true true real_connect socket address len).2.sockets
    ∧ ((w_bind ntop4 ntop6 hosts st true true real_bind socket address len).1 =
        real_bind socket address len)
    ∧ socket ∈
        (w_bind ntop4 ntop6 hosts st true true real_bind socket address len).2.sockets
    ∧ (2 < socket →
        should_intercept_socket
          (some (w_connect ntop4 ntop6 hosts st true true real_connect
            socket address len).2.sockets) socket = true)
    ∧ (2 < socket →
        should_intercept_socket
          (some (w_bind ntop4 ntop6 hosts st true true real_bind
            socket address len).2.sockets) socket = true) := by
  have hmem : socket ∈ (trackSocket hosts st true true socket
      (get_in_addr ntop4 ntop6 address)).sockets := by
    unfold trackSocket
    rw [if_pos ⟨hip, rfl⟩]
    exact mem_btInsert_self _ _
  refine ⟨rfl, hmem, rfl, hmem, fun hgt => ?_, fun hgt => ?_⟩ <;>
    · simp only [should_intercept_socket, if_neg (Int.not_le.mpr hgt)]
      exact List.elem_eq_true_of_mem hmem

/-- C10 counterexample: `connect` on descriptor 2 (a standard stream dup'ed
onto a socket) to a tracked address, with the real `connect` failing
(result −1): the descriptor is inserted into `HOST_SOCKETS`, yet
`should_intercept_socket` reports it untracked, against the claim's
"still subsequently reported as tracked". -/
theorem connect_tracking_counterexample :
    ((w_connect (fun _ => ['9']) (fun _ => ['9']) [] ⟨[['9']], []⟩ true true
        (fun _ _ _ => -1) 2 (SockAddr.v4 5) 16).1 = -1)
    ∧ (2 : Int) ∈ (w_connect (fun _ => ['9']) (fun _ => ['9']) [] ⟨[['9']], []⟩ true true
        (fun _ _ _ => -1) 2 (SockAddr.v4 5) 16).2.sockets
    ∧ should_intercept_socket
        (some (w_connect (fun _ => ['9']) (fun _ => ['9']) [] ⟨[['9']], []⟩ true true
          (fun _ _ _ => -1) 2 (SockAddr.v4 5) 16).2.sockets) 2 = false := by
  refine ⟨by decide, by decide, by decide⟩

/-- C10 witness: a failed connect on descriptor 3 to a tracked address is
reported as tracked. -/
theorem connect_tracking_witness :
    should_intercept_socket
      (some (w_connect (fun _ => ['9']) (fun _ => ['9']) [] ⟨[['9']], []⟩ true true
        (fun _ _ _ => -1) 3 (SockAddr.v4 5) 16).2.sockets) 3 = true :=
  (connect_bind_track_regardless (fun _ => ['9']) (fun _ => ['9']) [] ⟨[['9']], []⟩
    (fun _ _ _ => -1) (fun _ _ _ => -1) 3 (SockAddr.v4 5) 16
    (by decide)).2.2.2.2.1 (by decide)

end PreloadLatency
